import Mathlib

/-!
Shallow embedding of `teuthology/provision/maas.py`: the MAAS machine
lifecycle controller (configuration gate, image resolution, lock/unlock,
deploy, release, abort, status polling, and the `create`/`release` state
machines).  Python dictionaries are modelled with structures of `Option`
fields (`.get` returns `none` for a missing or null key), Python exceptions
with `Except Err`, and the HTTP requests a method issues with an explicit
trace of `Call`s.  Python-level failures that are not domain errors
(`TypeError` from comparing a list with an int, `AttributeError` from calling
`.lower()` on `None`) are explicit `Err` constructors.
-/

/-- Equality of `Except` values is decidable when it is on both sides. -/
instance {ε α : Type} [DecidableEq ε] [DecidableEq α] :
    DecidableEq (Except ε α) := fun x y =>
  match x, y with
  | .error a, .error b =>
    if h : a = b then .isTrue (by rw [h])
    else .isFalse (fun hc => h (by cases hc; rfl))
  | .error a, .ok b => .isFalse (fun hc => Except.noConfusion hc)
  | .ok a, .error b => .isFalse (fun hc => Except.noConfusion hc)
  | .ok a, .ok b =>
    if h : a = b then .isTrue (by rw [h])
    else .isFalse (fun hc => h (by cases hc; rfl))

namespace Maas

/-- Every error the module can raise.  Domain errors carry the context the
corresponding `RuntimeError` message interpolates (shortname, system id,
observed value); `pyTypeError` and `pyAttributeError` stand for the
interpreter-level exceptions Python raises before a `RuntimeError` could be
built. -/
inductive Err where
  | pyTypeError
  | pyAttributeError
  | notConfigured
  | noImages
  | noImage (name : String)
  | notSynced (name : String) (observed : Option String)
  | failedToLock (shortname system_id : String)
  | lockFailure (shortname : String) (observed : Option Bool)
  | failedToUnlock (shortname system_id : String)
  | unlockFailure (shortname : String) (observed : Option Bool)
  | failedToDeploy (shortname system_id : String)
  | deployFailure (shortname : String) (observed : Option String)
  | failedToRelease (shortname system_id : String)
  | releaseFailure (shortname : String) (observed : Option String)
  | failedToAbort (shortname system_id : String)
  | notReady (shortname : String) (observed : Option String)
  | statusTimeout (status shortname system_id : String)
  | verificationMismatch (shortname : String)
deriving DecidableEq

/-- A machine-shaped JSON response body.  `none` fields are keys that are
missing or null, read with `.get` in the source.  A falsy response (`null` or
an empty body, `if not resp:` in the source) is modelled as `none` at the
`Option MachineResp` level. -/
structure MachineResp where
  status_name : Option String := none
  locked : Option Bool := none
deriving DecidableEq

/-- One entry of the `/boot-resources/` response.  `get_image_data` indexes
`image["name"]` directly, so `name` is total; `type` is read with `.get` in
`deploy_host` and may be absent. -/
structure Image where
  name : String
  type : Option String
deriving DecidableEq

/-- The JSON body `deploy_host` posts to `op-deploy`. -/
structure DeployData where
  distro_series : Option String
  user_data : Option String
deriving DecidableEq

/-- One state-changing HTTP request issued against the service, plus the
polling loop as an observable step; used to state ordering and
"never issues the call" properties. -/
inductive Call where
  | opLock
  | opUnlock
  | opAbort
  | opDeploy (data : DeployData)
  | opRelease (erase : Bool)
  | waitFor (status : String)
deriving DecidableEq

/-- A config value that may be a string or a list (`machine_types` accepts
both, maas.py lines 55-57). -/
inductive ConfVal where
  | str (s : String)
  | list (l : List String)
deriving DecidableEq

/-- The `maas` section of the teuthology config: the three parameters
`enabled` checks, maas.py line 26. -/
structure MaasConf where
  endpoint : Option String := none
  api_key : Option String := none
  machine_types : Option ConfVal := none
deriving DecidableEq

/-- Python `str.lower()`: lower-case every character.  (A structural model of
`String.toLower`, used so that concrete runs reduce in the kernel.) -/
def pyLower (s : String) : String :=
  String.mk (s.data.map Char.toLower)

/-- Python `str.split(sep)` for a one-character separator: splits on every
occurrence and keeps empty pieces, so `"".split(",") == [""]` and a trailing
separator yields a trailing empty string. -/
def pySplitChars (sep : Char) : List Char → List (List Char)
  | [] => [[]]
  | c :: rest =>
    if c = sep then
      [] :: pySplitChars sep rest
    else
      match pySplitChars sep rest with
      | [] => [[c]]
      | h :: t => (c :: h) :: t

/-- Python `str.split(sep)` on a `String`. -/
def pySplit (s : String) (sep : Char) : List String :=
  (pySplitChars sep s.data).map String.mk

/-- Python truthiness of an optional string (`not maas_conf.get(param)`):
missing, null and the empty string are falsy. -/
def strTruthy : Option String → Bool
  | none => false
  | some s => s ≠ ""

/-- Python truthiness of an optional string-or-list config value: missing,
null, the empty string and the empty list are falsy. -/
def valTruthy : Option ConfVal → Bool
  | none => false
  | some (.str s) => s ≠ ""
  | some (.list l) => l ≠ []

/-- Python truthiness of `.get("locked")`: only `True` is truthy among
`None`/`False`/`True`. -/
def lockedTruthy : Option Bool → Bool
  | some b => b
  | none => false

/-- `[param for param in params if not maas_conf.get(param)]` with
`params = ["endpoint", "api_key", "machine_types"]`, maas.py lines 26-27. -/
def unsetParams (c : MaasConf) : List String :=
  (if strTruthy c.endpoint then [] else ["endpoint"]) ++
  (if strTruthy c.api_key then [] else ["api_key"]) ++
  (if valTruthy c.machine_types then [] else ["machine_types"])

/-- Python 3 semantics of `some_list < some_int`: comparing a list with an
integer is unsupported and raises `TypeError`, maas.py line 36 compares
`api_key.split(":")` (a list) with `3`. -/
def pyListLtNat (_l : List String) (_n : Nat) : Except Err Bool :=
  .error .pyTypeError

/-- `enabled(warn=False)`, maas.py lines 18-43.  Collects the unset
parameters; when some parameter is unset and `api_key` is truthy it evaluates
`api_key.split(":") < 3` (which in Python 3 raises `TypeError`); every path
that completes returns `True` except the (unreachable) malformed-key branch
returning `False`. -/
def enabled (c : MaasConf) : Except Err Bool :=
  if unsetParams c ≠ [] then
    match c.api_key with
    | some api_key =>
      if api_key ≠ "" then
        match pyListLtNat (pySplit api_key ':') 3 with
        | .error e => .error e
        | .ok lt => if lt then .ok false else .ok true
      else
        .ok true
    | none => .ok true
  else
    .ok true

/-- `get_types()`, maas.py lines 46-58: empty list when `enabled()` is
falsy, otherwise split a string value on commas and drop falsy (empty)
entries. -/
def get_types (c : MaasConf) : Except Err (List String) :=
  match enabled c with
  | .error e => .error e
  | .ok e =>
    if !e then
      .ok []
    else
      let types := c.machine_types.getD (.str "")
      let l := match types with
        | .str s => pySplit s ','
        | .list l => l
      .ok (l.filter (fun t => t ≠ ""))

/-- The configuration gate in `MAAS.__init__`, maas.py lines 79-80:
`if not enabled(): raise RuntimeError("MAAS is not configured!")`. -/
def initGate (c : MaasConf) : Except Err Unit :=
  match enabled c with
  | .error e => .error e
  | .ok e => if !e then .error .notConfigured else .ok ()

/-- `get_image_data()`, maas.py lines 166-184: error when the resource list
is empty; otherwise compose the name as `f"{self.os_type.lower()}/noble"`
(the os_version is hardcoded to "noble", see the TODO about MAAS bug 1923315)
and return the first entry whose `name` equals it, or error. -/
def get_image_data (os_type : String) (resp : List Image) : Except Err Image :=
  if resp.length == 0 then
    .error .noImages
  else
    let name := pyLower os_type ++ "/noble"
    match resp.find? (fun image => image.name == name) with
    | some image => .ok image
    | none => .error (.noImage name)

/-- `lock_host()`, maas.py lines 186-200: falsy response is a failed-to-lock
error; a response whose `locked` is falsy is a lock-failure error naming the
observed value. -/
def lock_host (shortname system_id : String) (resp : Option MachineResp) :
    Except Err Unit × List Call :=
  (match resp with
   | none => .error (.failedToLock shortname system_id)
   | some r =>
     if !lockedTruthy r.locked then
       .error (.lockFailure shortname r.locked)
     else
       .ok (), [.opLock])

/-- `unlock_host()`, maas.py lines 202-216: falsy response is a
failed-to-unlock error; a response whose `locked` is truthy is an
unlock-failure error naming the observed value. -/
def unlock_host (shortname system_id : String) (resp : Option MachineResp) :
    Except Err Unit × List Call :=
  (match resp with
   | none => .error (.failedToUnlock shortname system_id)
   | some r =>
     if lockedTruthy r.locked then
       .error (.unlockFailure shortname r.locked)
     else
       .ok (), [.opUnlock])

/-- `deploy_host()`, maas.py lines 218-247: resolve the image; require its
`type` (read with `.get`, so `.lower()` on a missing value is an
`AttributeError`) to be "synced" case-insensitively, else a not-synced error
naming the image and the observed type and no request is sent; otherwise post
`op-deploy` with `distro_series` set to the image name, and require a truthy
response whose `status_name` equals `"Deploying"` exactly. -/
def deploy_host (shortname system_id os_type : String) (resources : List Image)
    (resp : Option MachineResp) (user_data : Option String) :
    Except Err Unit × List Call :=
  match get_image_data os_type resources with
  | .error e => (.error e, [])
  | .ok image_data =>
    match image_data.type with
    | none => (.error .pyAttributeError, [])
    | some ty =>
      if pyLower ty ≠ "synced" then
        (.error (.notSynced image_data.name image_data.type), [])
      else
        let data : DeployData := ⟨some image_data.name, user_data⟩
        (match resp with
         | none => .error (.failedToDeploy shortname system_id)
         | some r =>
           if !(r.status_name == some "Deploying") then
             .error (.deployFailure shortname r.status_name)
           else
             .ok (), [.opDeploy data])

/-- `release_host(erase=True)`, maas.py lines 249-267: post `op-release` with
`{"erase": erase}`; a falsy response is a failed-to-release error; otherwise
evaluate `resp.get("status_name").lower()` — an `AttributeError` when
`status_name` is missing or null — and require it to equal "disk erasing",
else a release-failure error naming the observed value. -/
def release_host (shortname system_id : String) (resp : Option MachineResp)
    (erase : Bool := true) : Except Err Unit × List Call :=
  (match resp with
   | none => .error (.failedToRelease shortname system_id)
   | some r =>
     match r.status_name with
     | none => .error .pyAttributeError
     | some s =>
       if !(pyLower s == "disk erasing") then
         .error (.releaseFailure shortname r.status_name)
       else
         .ok (), [.opRelease erase])

/-- `abort_deploy()`, maas.py lines 269-278: post `op-abort`; a falsy
response is a failed-to-abort error. -/
def abort_deploy (shortname system_id : String) (resp : Option MachineResp) :
    Except Err Unit × List Call :=
  (match resp with
   | none => .error (.failedToAbort shortname system_id)
   | some _ => .ok (), [.opAbort])

/-- `_wait_for_status(status)`, maas.py lines 325-355, instrumented to return
the number of polls performed before the match.  Each poll fetches the host
data and compares `status_name.lower()` with `status.lower()`; a match
returns immediately.

Modelled from the spec: `safe_while` (`teuthology.contextutil`, not under
src/) bounds the loop to finitely many polls — one every `poll_interval`
seconds up to `timeout` — and on exhaustion the loop ends and the helper
raises the status-timeout error naming the target status, the hostname and
the system id.  `polls` is the finite sequence of `status_name` values the
budgeted polls would observe. -/
def _wait_for_status (shortname system_id status : String) :
    List String → Except Err Nat
  | [] => .error (.statusTimeout status shortname system_id)
  | status_name :: rest =>
    if pyLower status_name == pyLower status then
      .ok 1
    else
      match _wait_for_status shortname system_id status rest with
      | .ok n => .ok (n + 1)
      | .error e => .error e

/-- The OS identity used by `_verify_installed_os`; the remote-introspection
collaborator (`teuthology.orchestra`) is out of scope, so the remote's actual
OS is an input. -/
structure OSDesc where
  name : String
  version : String
deriving DecidableEq

/-- `_verify_installed_os()`, maas.py lines 357-364: error when the remote's
reported OS differs from the requested one. -/
def _verify_installed_os (shortname : String) (remote_os : OSDesc)
    (os_type os_version : String) : Except Err Unit :=
  if remote_os ≠ ⟨os_type, os_version⟩ then
    .error (.verificationMismatch shortname)
  else
    .ok ()

/-- Everything the service and collaborators feed one `create()` run: the
first `get_host_data` snapshot's `status_name`, the boot-resource list, the
computed cloud-init user data, the responses of each state-changing call, the
status sequences the two polling loops observe, and the remote's actual OS. -/
structure World where
  host_status : Option String
  boot_resources : List Image
  user_data : Option String
  deploy_resp : Option MachineResp
  deploy_polls : List String
  abort_resp : Option MachineResp
  ready_polls : List String
  lock_resp : Option MachineResp
  remote_os : OSDesc
deriving DecidableEq

/-- The `try` block of `create()`, maas.py lines 290-291:
`deploy_host()` then `_wait_for_status("Deployed")`. -/
def deployAndWait (shortname system_id os_type : String) (w : World) :
    Except Err Unit × List Call :=
  let d := deploy_host shortname system_id os_type
      w.boot_resources w.deploy_resp w.user_data
  match d.1 with
  | .error e => (.error e, d.2)
  | .ok _ =>
    (match _wait_for_status shortname system_id "Deployed" w.deploy_polls with
     | .error e => .error e
     | .ok _ => .ok (), d.2 ++ [.waitFor "Deployed"])

/-- The `except` block of `create()`, maas.py lines 292-298: log, then
`abort_deploy()`, then `_wait_for_status("Ready")`, then re-`raise` the
original error `e`.  Python semantics: an exception raised by
`abort_deploy()` or by the wait propagates from the `except` block itself, so
the bare `raise` of `e` is only reached when both rollback steps succeed. -/
def createRollback (shortname system_id : String) (w : World) (e : Err) :
    Except Err Unit × List Call :=
  let a := abort_deploy shortname system_id w.abort_resp
  match a.1 with
  | .error e2 => (.error e2, a.2)
  | .ok _ =>
    (match _wait_for_status shortname system_id "Ready" w.ready_polls with
     | .error e3 => .error e3
     | .ok _ => .error e, a.2 ++ [.waitFor "Ready"])

/-- `create()`, maas.py lines 280-301: require the host's `status_name` to be
"ready" case-insensitively (`.get(...).lower()`, an `AttributeError` when
missing); run the `try` block; on failure run the rollback; on success
`lock_host()` then `_verify_installed_os()`. -/
def create (shortname system_id os_type os_version : String) (w : World) :
    Except Err Unit × List Call :=
  match w.host_status with
  | none => (.error .pyAttributeError, [])
  | some st =>
    if pyLower st ≠ "ready" then
      (.error (.notReady shortname w.host_status), [])
    else
      let t := deployAndWait shortname system_id os_type w
      match t.1 with
      | .error e =>
        let r := createRollback shortname system_id w e
        (r.1, t.2 ++ r.2)
      | .ok _ =>
        let l := lock_host shortname system_id w.lock_resp
        match l.1 with
        | .error e => (.error e, t.2 ++ l.2)
        | .ok _ =>
          (_verify_installed_os shortname w.remote_os os_type os_version,
           t.2 ++ l.2)

/-- Everything the service feeds one `release()` run: the `get_host_data`
snapshot, the responses of the unlock and release calls, and the statuses the
final polling loop observes. -/
structure ReleaseWorld where
  host : MachineResp
  unlock_resp : Option MachineResp
  release_resp : Option MachineResp
  ready_polls : List String
deriving DecidableEq

/-- `release()`, maas.py lines 303-312: fetch the host data; when its
`locked` is truthy, `unlock_host()` first; then `release_host()` with the
default `erase=True`; then `_wait_for_status("Ready")`. -/
def release (shortname system_id : String) (w : ReleaseWorld) :
    Except Err Unit × List Call :=
  let rest : Except Err Unit × List Call :=
    let r := release_host shortname system_id w.release_resp
    match r.1 with
    | .error e => (.error e, r.2)
    | .ok _ =>
      (match _wait_for_status shortname system_id "Ready" w.ready_polls with
       | .error e => .error e
       | .ok _ => .ok (), r.2 ++ [.waitFor "Ready"])
  if lockedTruthy w.host.locked then
    let u := unlock_host shortname system_id w.unlock_resp
    match u.1 with
    | .error e => (.error e, u.2)
    | .ok _ => (rest.1, u.2 ++ rest.2)
  else
    rest

/-! Concrete configurations and worlds used to exercise the definitions on
closed inputs. -/

/-- A configuration with `endpoint` and `machine_types` set but no
`api_key`. -/
def confNoApiKey : MaasConf :=
  { endpoint := some "http://maas.example:5240/MAAS/api/2.0"
    api_key := none
    machine_types := some (.list ["mira"]) }

/-- A configuration whose `api_key` has only two colon-separated parts and
whose `endpoint` is unset. -/
def confBadKeyNoEndpoint : MaasConf :=
  { endpoint := none
    api_key := some "ab:cd"
    machine_types := some (.list ["mira"]) }

/-- A fully-populated configuration whose `api_key` has only two
colon-separated parts. -/
def confBadKeyFull : MaasConf :=
  { endpoint := some "http://maas.example:5240/MAAS/api/2.0"
    api_key := some "ab:cd"
    machine_types := some (.list ["mira"]) }

/-- A fully-populated configuration whose `machine_types` string carries a
trailing comma. -/
def confTrailingComma : MaasConf :=
  { endpoint := some "http://maas.example:5240/MAAS/api/2.0"
    api_key := some "key:token:secret"
    machine_types := some (.str "mira,arm,") }

/-- A `create()` run in which deployment fails (no boot resources) and the
rollback's `abort_deploy` also fails (falsy response). -/
def worldAbortAlsoFails : World :=
  { host_status := some "Ready"
    boot_resources := []
    user_data := none
    deploy_resp := none
    deploy_polls := []
    abort_resp := none
    ready_polls := []
    lock_resp := none
    remote_os := ⟨"ubuntu", "noble"⟩ }

/-- A `create()` run in which the deploy succeeds, the wait for "Deployed"
times out (the injected failure), and the rollback (abort, then wait for
"Ready") succeeds. -/
def worldCleanRollback : World :=
  { host_status := some "Ready"
    boot_resources := [⟨"ubuntu/noble", some "Synced"⟩]
    user_data := none
    deploy_resp := some { status_name := some "Deploying" }
    deploy_polls := ["Deploying", "Failed deployment"]
    abort_resp := some { status_name := some "Ready" }
    ready_polls := ["Ready"]
    lock_resp := none
    remote_os := ⟨"ubuntu", "noble"⟩ }

/-- A `release()` run on a locked host whose unlock succeeds, whose release
response reports "Disk erasing", and whose final poll reaches "Ready". -/
def releaseWorldHappy : ReleaseWorld :=
  { host := { status_name := some "Deployed", locked := some true }
    unlock_resp := some { status_name := some "Releasing", locked := some false }
    release_resp := some { status_name := some "Disk erasing" }
    ready_polls := ["Disk erasing", "Ready"] }

end Maas

namespace Maas

/-- The trace of one `unlock_host` run is exactly the `op-unlock` request. -/
theorem unlock_host_trace (shortname system_id : String)
    (resp : Option MachineResp) :
    (unlock_host shortname system_id resp).2 = [.opUnlock] := rfl

/-- The trace of one `release_host` run is exactly the `op-release` request
with its `erase` flag. -/
theorem release_host_trace (shortname system_id : String)
    (resp : Option MachineResp) (erase : Bool) :
    (release_host shortname system_id resp erase).2 = [.opRelease erase] := rfl

/-- `lockedTruthy` holds exactly on `some true`. -/
theorem lockedTruthy_eq_true (o : Option Bool) :
    lockedTruthy o = true ↔ o = some true := by
  cases o with
  | none => simp [lockedTruthy]
  | some b => cases b <;> simp [lockedTruthy]

/-- Claim C4 (code_bug): when `api_key` is absent but `endpoint` and
`machine_types` are set, `enabled` reports the parameter as unset and yet
returns `True`, so the `MAAS.__init__` gate does not raise the
configuration error: construction does not fail fast, contradicting
`enabled`'s own docstring ("True if they are present; False if they are
not"). -/
theorem enabled_missing_api_key_not_rejected :
    unsetParams confNoApiKey = ["api_key"] ∧
    enabled confNoApiKey = .ok true ∧
    initGate confNoApiKey = .ok () := by
  decide

/-- Claim C5 (code_bug): "ab:cd" splits into fewer than 3 parts, yet with it
as `api_key` the check never warns-and-returns-`False`: when another
parameter is unset the comparison `api_key.split(":") < 3` raises `TypeError`
(an unrelated crash), and when every parameter is set the malformed key is
not examined at all and `enabled` returns `True`. -/
theorem enabled_malformed_api_key_crashes :
    (pySplit "ab:cd" ':').length < 3 ∧
    enabled confBadKeyNoEndpoint = .error .pyTypeError ∧
    enabled confBadKeyFull = .ok true := by
  decide

/-- Claim C10: whatever the configuration, a list `get_types` returns
contains no empty-string entry, and when the `enabled()` gate reports the
configuration as not enabled `get_types` returns the empty list. -/
theorem get_types_no_empty_entries (c : MaasConf) :
    (∀ l, get_types c = .ok l → "" ∉ l) ∧
    (enabled c = .ok false → get_types c = .ok []) := by
  constructor
  · intro l hl
    rcases he : enabled c with e | b
    · simp [get_types, he] at hl
    · cases b with
      | false =>
        simp [get_types, he] at hl
        subst hl
        simp
      | true =>
        simp [get_types, he] at hl
        intro hmem
        rw [← hl] at hmem
        simp [List.mem_filter] at hmem
  · intro he
    simp [get_types, he]

/-- Claim C2 (counterexample): with `os_type = "ubuntu"`, `os_version =
"jammy"` and a resource list containing exactly the entry named
"ubuntu/jammy", resolution does not select that entry: the code composes
"ubuntu/noble" — the requested os_version plays no part — and fails with an
image-not-found error naming the composed string. -/
theorem get_image_data_ignores_os_version :
    get_image_data "ubuntu" [⟨"ubuntu/jammy", some "Synced"⟩] =
      .error (.noImage "ubuntu/noble") ∧
    pyLower "ubuntu" ++ "/" ++ "jammy" ≠ "ubuntu/noble" := by
  decide

/-- Claim C2 (amended): `get_image_data` fails with the no-images error on an
empty resource list; otherwise it composes the name `{os_type.lower()}/noble`
— the requested os_version is ignored, hardcoded to "noble" as a workaround
for MAAS bug 1923315 — and returns an entry bearing exactly that name when
one exists, failing with the image-not-found error naming the composed
string when none does. -/
theorem get_image_data_characterization (os_type : String)
    (resources : List Image) :
    (resources = [] → get_image_data os_type resources = .error .noImages) ∧
    ((∃ image ∈ resources, image.name = pyLower os_type ++ "/noble") →
      ∃ image, get_image_data os_type resources = .ok image ∧
        image.name = pyLower os_type ++ "/noble") ∧
    (resources ≠ [] →
      (∀ image ∈ resources, image.name ≠ pyLower os_type ++ "/noble") →
      get_image_data os_type resources =
        .error (.noImage (pyLower os_type ++ "/noble"))) := by
  refine ⟨?_, ?_, ?_⟩
  · intro h
    subst h
    rfl
  · rintro ⟨img, hmem, hname⟩
    have hne : resources ≠ [] := by
      rintro rfl
      simp at hmem
    have hsome :
        (resources.find?
          (fun image => image.name == pyLower os_type ++ "/noble")).isSome := by
      rw [List.find?_isSome]
      exact ⟨img, hmem, by simp [hname]⟩
    obtain ⟨img2, hfind⟩ := Option.isSome_iff_exists.mp hsome
    refine ⟨img2, ?_, ?_⟩
    · simp [get_image_data, List.length_eq_zero, hne, hfind]
    · have := List.find?_some hfind
      simpa using this
  · intro hne hall
    have hnone :
        resources.find?
          (fun image => image.name == pyLower os_type ++ "/noble") = none := by
      rw [List.find?_eq_none]
      intro img hmem
      simp [hall img hmem]
    simp [get_image_data, List.length_eq_zero, hne, hnone]

/-- Claim C2, exercised: with a nonempty list carrying "ubuntu/noble" the
matching entry is selected. -/
theorem get_image_data_characterization_exercised :
    get_image_data "Ubuntu" [⟨"centos/9", none⟩, ⟨"ubuntu/noble", some "Synced"⟩] =
      .ok ⟨"ubuntu/noble", some "Synced"⟩ := by
  decide

/-- Claim C3 (spec-modelled polling budget): over the finite sequence of
statuses the budgeted polls observe before the timeout, if no poll matches
the target case-insensitively the helper fails with the status-timeout error
naming the target status, the hostname and the system id; if some poll
matches, the helper returns normally at the first matching poll. -/
theorem wait_for_status_correct (shortname system_id target : String)
    (polls : List String) :
    ((∀ s ∈ polls, pyLower s ≠ pyLower target) →
      _wait_for_status shortname system_id target polls =
        .error (.statusTimeout target shortname system_id)) ∧
    (∀ i, ∀ h : i < polls.length,
      pyLower (polls.get ⟨i, h⟩) = pyLower target →
      (∀ j, ∀ hj : j < polls.length, j < i →
        pyLower (polls.get ⟨j, hj⟩) ≠ pyLower target) →
      _wait_for_status shortname system_id target polls = .ok (i + 1)) := by
  induction polls with
  | nil =>
    refine ⟨fun _ => rfl, ?_⟩
    intro i h
    exact absurd h (by simp)
  | cons s rest ih =>
    constructor
    · intro hall
      have hs : ¬((pyLower s == pyLower target) = true) := by
        simp [hall s (List.mem_cons_self s rest)]
      unfold _wait_for_status
      rw [if_neg hs, ih.1 (fun x hx => hall x (List.mem_cons_of_mem _ hx))]
    · intro i h hmatch hbefore
      cases i with
      | zero =>
        have hs : (pyLower s == pyLower target) = true := by
          simpa using hmatch
        unfold _wait_for_status
        rw [if_pos hs]
      | succ i2 =>
        have hs : ¬((pyLower s == pyLower target) = true) := by
          have := hbefore 0 (Nat.succ_pos _) (Nat.succ_pos i2)
          simpa using this
        have hlt : i2 < rest.length := Nat.lt_of_succ_lt_succ h
        have hm2 : pyLower (rest.get ⟨i2, hlt⟩) = pyLower target := by
          simpa using hmatch
        have hb2 : ∀ j, ∀ hj : j < rest.length, j < i2 →
            pyLower (rest.get ⟨j, hj⟩) ≠ pyLower target := by
          intro j hj hji
          have := hbefore (j + 1) (Nat.succ_lt_succ hj) (Nat.succ_lt_succ hji)
          simpa using this
        unfold _wait_for_status
        rw [if_neg hs, ih.2 i2 hlt hm2 hb2]

/-- Claim C3, exercised: the status reaches a case-variant of the target at
the third poll and the helper returns there; with no matching poll it raises
the status-timeout error naming target, hostname and system id. -/
theorem wait_for_status_correct_exercised :
    _wait_for_status "host1" "sysid1" "Deployed"
      ["Deploying", "Deploying", "DEPLOYED"] = .ok 3 ∧
    _wait_for_status "host1" "sysid1" "Deployed"
      ["Deploying", "Failed deployment"] =
      .error (.statusTimeout "Deployed" "host1" "sysid1") :=
  ⟨(wait_for_status_correct "host1" "sysid1" "Deployed"
      ["Deploying", "Deploying", "DEPLOYED"]).2 2 (by decide) (by decide)
      (by decide),
   (wait_for_status_correct "host1" "sysid1" "Deployed"
      ["Deploying", "Failed deployment"]).1 (by decide)⟩

/-- Claim C6: when the resolved image's `type` field is present and not
case-insensitively equal to "synced", `deploy_host` fails with the not-synced
error reporting the image name and the observed type, and never issues the
`op-deploy` request. -/
theorem deploy_host_not_synced (shortname system_id os_type : String)
    (resources : List Image) (resp : Option MachineResp)
    (user_data : Option String) (image : Image) (ty : String)
    (h1 : get_image_data os_type resources = .ok image)
    (h2 : image.type = some ty)
    (h3 : pyLower ty ≠ "synced") :
    (deploy_host shortname system_id os_type resources resp user_data).1 =
      .error (.notSynced image.name image.type) ∧
    ∀ d, Call.opDeploy d ∉
      (deploy_host shortname system_id os_type resources resp user_data).2 := by
  have hres : deploy_host shortname system_id os_type resources resp user_data =
      (.error (.notSynced image.name (some ty)), []) := by
    simp only [deploy_host, h1, h2]
    rw [if_pos h3]
  rw [h2, hres]
  exact ⟨rfl, by simp⟩

/-- Claim C6, exercised on an unsynced image. -/
theorem deploy_host_not_synced_exercised :
    (deploy_host "host1" "sysid1" "ubuntu"
      [⟨"ubuntu/noble", some "Unsynced"⟩] none none).1 =
      .error (.notSynced "ubuntu/noble" (some "Unsynced")) ∧
    ∀ d, Call.opDeploy d ∉
      (deploy_host "host1" "sysid1" "ubuntu"
        [⟨"ubuntu/noble", some "Unsynced"⟩] none none).2 :=
  deploy_host_not_synced "host1" "sysid1" "ubuntu" _ none none
    ⟨"ubuntu/noble", some "Unsynced"⟩ "Unsynced" (by decide) rfl (by decide)

/-- Claim C7 (counterexample): a truthy unlock response without a `locked`
field (read as `None` by `.get`) makes `unlock_host` succeed even though the
`locked` field is not false: the source tests Python truthiness of
`resp.get("locked")`, not equality with `False`. -/
theorem unlock_host_succeeds_without_locked_field :
    (unlock_host "host1" "sysid1"
      (some { status_name := some "Releasing", locked := none })).1 = .ok () ∧
    ({ status_name := some "Releasing", locked := none } : MachineResp).locked ≠
      some false := by
  decide

/-- Claim C7 (amended): `lock_host` succeeds exactly when the response is
truthy and its `locked` field is `True`; `unlock_host` succeeds exactly when
the response is truthy and its `locked` field is falsy (`False` or absent);
and a truthy response failing the respective post-condition raises the
lock-failure (resp. unlock-failure) error naming the observed `locked`
value. -/
theorem lock_unlock_postconditions (shortname system_id : String)
    (resp : Option MachineResp) :
    ((lock_host shortname system_id resp).1 = .ok () ↔
      ∃ r, resp = some r ∧ r.locked = some true) ∧
    ((unlock_host shortname system_id resp).1 = .ok () ↔
      ∃ r, resp = some r ∧ r.locked ≠ some true) ∧
    (∀ r, resp = some r → r.locked ≠ some true →
      (lock_host shortname system_id resp).1 =
        .error (.lockFailure shortname r.locked)) ∧
    (∀ r, resp = some r → r.locked = some true →
      (unlock_host shortname system_id resp).1 =
        .error (.unlockFailure shortname r.locked)) := by
  cases resp with
  | none => simp [lock_host, unlock_host]
  | some r =>
    rcases hl : r.locked with _ | b
    · simp [lock_host, unlock_host, lockedTruthy, hl]
    · cases b <;> simp [lock_host, unlock_host, lockedTruthy, hl]

/-- Claim C9: a truthy release response lacking `status_name` (or carrying a
null one) makes `release_host` fail with the Python `AttributeError` from
`None.lower()`, not with the named release-failure error; and the
release-failure branch is reached only when `status_name` is a present
string (the error then names it). -/
theorem release_host_missing_status_name (shortname system_id : String)
    (r : MachineResp) (erase : Bool) (h : r.status_name = none) :
    (release_host shortname system_id (some r) erase).1 =
      .error .pyAttributeError ∧
    ∀ resp observed, (release_host shortname system_id resp erase).1 =
        .error (.releaseFailure shortname observed) →
      ∃ r2 s, resp = some r2 ∧ r2.status_name = some s ∧ observed = some s := by
  constructor
  · simp [release_host, h]
  · intro resp observed hfail
    rcases resp with _ | r2
    · simp [release_host] at hfail
    · rcases hs : r2.status_name with _ | s
      · simp [release_host, hs] at hfail
      · refine ⟨r2, s, rfl, hs, ?_⟩
        simp only [release_host, hs] at hfail
        by_cases hde : pyLower s = "disk erasing"
        · simp [hde] at hfail
        · simp [hde] at hfail
          exact hfail.symm

/-- Claim C9, exercised on a truthy response with no `status_name`. -/
theorem release_host_missing_status_name_exercised :
    (release_host "host1" "sysid1"
      (some { status_name := none, locked := some false }) true).1 =
      .error .pyAttributeError ∧
    ∀ resp observed, (release_host "host1" "sysid1" resp true).1 =
        .error (.releaseFailure "host1" observed) →
      ∃ r2 s, resp = some r2 ∧ r2.status_name = some s ∧ observed = some s :=
  release_host_missing_status_name "host1" "sysid1" _ true rfl

/-- Claim C10, exercised: a trailing comma in the `machine_types` string
yields no spurious entry. -/
theorem get_types_no_empty_entries_exercised :
    get_types confTrailingComma = .ok ["mira", "arm"] ∧
    "" ∉ ["mira", "arm"] :=
  ⟨by decide, (get_types_no_empty_entries confTrailingComma).1 _ (by decide)⟩

/-- Claim C8: in `release()`, a locked host sees the unlock call first (so
before the release operation); every `op-release` issued carries
`erase = true`, the default; and for a truthy release response carrying a
`status_name`, `release_host` succeeds exactly when that status is
case-insensitively "disk erasing", otherwise it raises the release-failure
error naming the observed value. -/
theorem release_semantics (shortname system_id : String) (w : ReleaseWorld) :
    (lockedTruthy w.host.locked = true →
      (release shortname system_id w).2.head? = some .opUnlock) ∧
    (∀ b, Call.opRelease b ∈ (release shortname system_id w).2 → b = true) ∧
    (∀ r s, w.release_resp = some r → r.status_name = some s →
      ((release_host shortname system_id w.release_resp).1 = .ok () ↔
        pyLower s = "disk erasing")) ∧
    (∀ r s, w.release_resp = some r → r.status_name = some s →
      pyLower s ≠ "disk erasing" →
      (release_host shortname system_id w.release_resp).1 =
        .error (.releaseFailure shortname (some s))) := by
  refine ⟨?_, ?_, ?_, ?_⟩
  · intro hl
    rcases hu : (unlock_host shortname system_id w.unlock_resp).1 with e | u
    · simp [release, hl, hu, unlock_host_trace]
    · rcases hr : (release_host shortname system_id w.release_resp).1 with e2 | u2
      · simp [release, hl, hu, hr, unlock_host_trace, release_host_trace]
      · rcases hw : _wait_for_status shortname system_id "Ready" w.ready_polls
          with e3 | n
        · simp [release, hl, hu, hr, hw, unlock_host_trace, release_host_trace]
        · simp [release, hl, hu, hr, hw, unlock_host_trace, release_host_trace]
  · intro b hb
    by_cases hl : lockedTruthy w.host.locked <;>
      rcases hu : (unlock_host shortname system_id w.unlock_resp).1 with e | u <;>
      rcases hr : (release_host shortname system_id w.release_resp).1 with e2 | u2 <;>
      rcases hw : _wait_for_status shortname system_id "Ready" w.ready_polls
        with e3 | n <;>
      simp [release, hl, hu, hr, hw, unlock_host_trace, release_host_trace] at hb <;>
      simp [hb]
  · intro r s hr hs
    simp only [release_host, hr, hs]
    by_cases hde : pyLower s = "disk erasing" <;> simp [hde]
  · intro r s hr hs hde
    simp [release_host, hr, hs, hde]

/-- Claim C8, exercised end-to-end: a locked host is unlocked, then released
with `erase = true`, the "Disk erasing" response is accepted, and the poll
reaches "Ready". -/
theorem release_semantics_exercised :
    release "host1" "sysid1" releaseWorldHappy =
      (.ok (), [.opUnlock, .opRelease true, .waitFor "Ready"]) := by
  decide

/-- Claim C1 (counterexample): deployment fails with the no-images error and
the rollback's `abort_deploy` also fails; `create()` then raises the
abort-failure error, not the original deployment error: an exception raised
inside the `except` block replaces the one being handled. -/
theorem create_rollback_error_replaces_original :
    (deployAndWait "host1" "sysid1" "ubuntu" worldAbortAlsoFails).1 =
      .error .noImages ∧
    (create "host1" "sysid1" "ubuntu" "noble" worldAbortAlsoFails).1 =
      .error (.failedToAbort "host1" "sysid1") ∧
    Err.failedToAbort "host1" "sysid1" ≠ Err.noImages := by
  decide

/-- Claim C1 (amended): when the host is Ready and the deploy phase
(`deploy_host` or the subsequent wait for "Deployed") fails with an error E,
`create()` runs `abort_deploy` and then awaits "Ready", and — provided both
rollback steps succeed — the error `create()` raises is exactly E.  When the
rollback itself fails, the rollback error propagates instead (see the
counterexample). -/
theorem create_reraises_original_error
    (shortname system_id os_type os_version : String) (w : World) (e : Err)
    (h1 : w.host_status = some "Ready")
    (h2 : (deployAndWait shortname system_id os_type w).1 = .error e)
    (h3 : w.abort_resp ≠ none)
    (h4 : ∃ n, _wait_for_status shortname system_id "Ready" w.ready_polls =
      .ok n) :
    create shortname system_id os_type os_version w =
      (.error e,
       (deployAndWait shortname system_id os_type w).2 ++
         [.opAbort, .waitFor "Ready"]) := by
  obtain ⟨n, hn⟩ := h4
  rcases ha : w.abort_resp with _ | ar
  · exact absurd ha h3
  · have hready : ¬(pyLower "Ready" ≠ "ready") := by decide
    simp only [create, h1, if_neg hready, createRollback, abort_deploy, ha,
      h2, hn]
    simp

/-- Claim C1 (amended), exercised: the wait for "Deployed" times out, the
rollback aborts and reaches "Ready", and `create()` surfaces the original
status-timeout error. -/
theorem create_reraises_original_error_exercised :
    create "host1" "sysid1" "ubuntu" "noble" worldCleanRollback =
      (.error (.statusTimeout "Deployed" "host1" "sysid1"),
       (deployAndWait "host1" "sysid1" "ubuntu" worldCleanRollback).2 ++
         [.opAbort, .waitFor "Ready"]) :=
  create_reraises_original_error "host1" "sysid1" "ubuntu" "noble"
    worldCleanRollback (.statusTimeout "Deployed" "host1" "sysid1")
    rfl (by decide) (by decide) ⟨1, by decide⟩

end Maas
